import Mathlib

/-!
# Verification of the `devils` browser-state façade (`src/index.ts`)

Shallow embedding of the five state managers exported by `src/index.ts`:
`storageManager`, `themeManager`, `qsm`, `scrollBack` and `audioPlayer`.
Browser substrates (localStorage, `window.location`, the scroll registry,
the audio-element registry) are modelled as explicit state that each
operation reads and returns.

JavaScript values that can flow through the façade are modelled by `Json`
(JSON-representable values) and `JsVal` (a `Json` value or `undefined`).
The browser built-ins `JSON.stringify`, `JSON.parse`, `btoa` and `atob`
are external collaborators; text produced by `JSON.stringify` is tracked
symbolically (`JsText.json`), while any other literal text stored in the
substrate is `JsText.lit` and stands for text that is not valid JSON
(the spec's "malformed" case).
-/

/-- A JSON-representable JavaScript value, as produced by `JSON.parse`.
Numbers are modelled as integers (no claim exercises fractional values or
NaN).  `obj` fields model the own enumerable properties of a JS object, so
the key list of an object representing an actual JS value has no duplicate
keys (`Json.wfB`); prototype-inherited properties are outside the model. -/
inductive Json where
  | null : Json
  | bool (b : Bool) : Json
  | num (n : Int) : Json
  | str (s : String) : Json
  | arr (elems : List Json) : Json
  | obj (fields : List (String × Json)) : Json
deriving Repr

/-- A JavaScript value position that may also hold `undefined`
(e.g. an omitted `defaultValue` argument, or a missing property). -/
inductive JsVal where
  | undefined : JsVal
  | val (j : Json) : JsVal
deriving Repr

/-- JSON string escaping for one character, as performed by
`JSON.stringify` on string values. -/
def escapeChar (c : Char) : String :=
  if c = '"' then "\\\""
  else if c = '\\' then "\\\\"
  else if c = '\n' then "\\n"
  else if c = '\r' then "\\r"
  else if c = '\t' then "\\t"
  else if c.toNat < 32 then
    "\\u" ++ (Nat.toDigits 16 c.toNat |> fun ds =>
      String.mk (List.replicate (4 - ds.length) '0' ++ ds))
  else String.singleton c

/-- JSON string escaping, as performed by `JSON.stringify`. -/
def escapeString (s : String) : String :=
  s.data.foldl (fun acc c => acc ++ escapeChar c) ""

mutual

/-- The text produced by the browser built-in `JSON.stringify` on a
JSON-representable value. -/
def Json.stringify : Json → String
  | .null => "null"
  | .bool b => if b then "true" else "false"
  | .num n => toString n
  | .str s => "\"" ++ escapeString s ++ "\""
  | .arr elems => "[" ++ stringifyList elems ++ "]"
  | .obj fields => "\x7b" ++ stringifyFields fields ++ "\x7d"

/-- Comma-separated serialization of array elements. -/
def stringifyList : List Json → String
  | [] => ""
  | [x] => x.stringify
  | x :: xs => x.stringify ++ "," ++ stringifyList xs

/-- Comma-separated serialization of object fields. -/
def stringifyFields : List (String × Json) → String
  | [] => ""
  | [(k, v)] => "\"" ++ escapeString k ++ "\":" ++ v.stringify
  | (k, v) :: xs => "\"" ++ escapeString k ++ "\":" ++ v.stringify ++ "," ++ stringifyFields xs

end

/-- No string occurs twice in the list (object keys are distinct). -/
def keysNodupB : List String → Bool
  | [] => true
  | k :: ks => !(ks.contains k) && keysNodupB ks

mutual

/-- A `Json` value models an actual JavaScript value only when no object
level carries duplicate keys (a JS object cannot have two properties with
the same name).  This is the precise reading of "JSON-serializable value"
used in the round-trip theorems. -/
def Json.wfB : Json → Bool
  | .null => true
  | .bool _ => true
  | .num _ => true
  | .str _ => true
  | .arr elems => wfListB elems
  | .obj fields => keysNodupB (fields.map Prod.fst) && wfFieldsB fields

/-- Well-formedness of every element of an array. -/
def wfListB : List Json → Bool
  | [] => true
  | x :: xs => x.wfB && wfListB xs

/-- Well-formedness of every field value of an object. -/
def wfFieldsB : List (String × Json) → Bool
  | [] => true
  | (_, v) :: xs => v.wfB && wfFieldsB xs

end

/-- Raw text held by a browser substrate cell (a `localStorage` value).
`json j` is the canonical `JSON.stringify` output of `j`; `lit s` is any
other literal text, standing for text that is **not** valid JSON (every
literal the repository stores raw — `"light"`, `"dark"`, `"undefined"` —
is indeed invalid JSON). -/
inductive JsText where
  | json (j : Json) : JsText
  | lit (s : String) : JsText
deriving Repr

/-- The character content of a stored text. -/
def textOf : JsText → String
  | .json j => j.stringify
  | .lit s => s

/-- JavaScript truthiness of a `Json` value (`null`, `false`, `0` and
`""` are falsy; arrays and objects are always truthy). -/
def Json.truthy : Json → Bool
  | .null => false
  | .bool b => b
  | .num n => n != 0
  | .str s => s != ""
  | .arr _ => true
  | .obj _ => true

/-- The check `[null, undefined].includes(value)` that both `storageManager.get`
and `qsm.read` apply before returning a parsed value. -/
def isNullish : JsVal → Bool
  | .undefined => true
  | .val .null => true
  | .val (.bool _) => false
  | .val (.num _) => false
  | .val (.str _) => false
  | .val (.arr _) => false
  | .val (.obj _) => false

/-- JavaScript truthiness of an optional string argument (`undefined` and
`""` are falsy, every other string is truthy). -/
def keyTruthy : Option String → Bool
  | none => false
  | some s => s != ""

/-- The string carried by an optional key argument (only inspected when
the argument is truthy). -/
def keyVal : Option String → String
  | none => ""
  | some s => s

/-- Model of `window.localStorage`: a finite map from keys to raw texts,
`none` meaning the key is absent (`getItem` returns `null`). -/
def Store : Type := String → Option JsText

/-- Model of `localStorage.setItem key t` (overwrites any previous value). -/
def setItem (store : Store) (key : String) (t : JsText) : Store :=
  fun k => if k = key then some t else store k

/-- Model of `localStorage.removeItem key`. -/
def removeItem (store : Store) (key : String) : Store :=
  fun k => if k = key then none else store k

/-- The empty store (also the result of `localStorage.clear()`). -/
def emptyStore : Store := fun _ => none

/-- Result of `JSON.parse` applied to the result of `localStorage.getItem`:
`getItem` returning `null` makes `JSON.parse` see the string `"null"`
(JS string coercion), which parses to `null`; canonical serializations
parse back to the serialized value; any other literal text throws, which
the model reports as `Except.error`. -/
def jsonParseStored : Option JsText → Except Unit Json
  | none => .ok .null
  | some (.json j) => .ok j
  | some (.lit _) => .error ()

/-- The argument `localStorage.setItem` receives from `storageManager.set`:
`JSON.stringify value` for a JSON value, and for `undefined` the built-in
returns `undefined`, which `setItem` coerces to the literal text
`"undefined"`. -/
def stringifyArg : JsVal → JsText
  | .undefined => .lit "undefined"
  | .val j => .json j

/-- Embedding of `storageManager.get(key, defaultValue)` — parses the stored text and
returns the default on parse failure or a `null`/`undefined` result
(`try { ... } catch { return defaultValue }`). -/
def storageManager.get (store : Store) (key : String) (defaultValue : JsVal := .undefined) : JsVal :=
  match jsonParseStored (store key) with
  | .ok j => if isNullish (.val j) then defaultValue else .val j
  | .error _ => defaultValue

/-- Embedding of `storageManager.set(key, value)` —
`localStorage.setItem(key, JSON.stringify(value))`. -/
def storageManager.set (store : Store) (key : String) (value : JsVal) : Store :=
  setItem store key (stringifyArg value)

/-- Embedding of `storageManager.clear(key?)` — `key ? removeItem(key) : clear()`.
Because the guard is JS truthiness, the empty-string key also clears the
whole store. -/
def storageManager.clear (store : Store) (key : Option String := none) : Store :=
  if keyTruthy key then removeItem store (keyVal key) else emptyStore

/-! ## Theme manager

State visible to `themeManager`: the persistent store, the OS dark-mode
preference (`window.matchMedia('(prefers-color-scheme: dark)').matches`)
and the `data-theme` attribute on `document.body`. -/

structure ThemeEnv where
  store : Store
  prefersDark : Bool
  bodyTheme : Option String

/-- The `localStorage` key used by the theme manager. -/
def themeManager.key : String := "APP_THEME"

/-- The local `preferredTheme` in `themeManager.get` — `'dark'` when
`window.matchMedia('(prefers-color-scheme: dark)').matches`, else
`'light'`. -/
def themeManager.preferredTheme (env : ThemeEnv) : String :=
  if env.prefersDark then "dark" else "light"

/-- The expression `localStorage.getItem(themeManager.key) || preferredTheme` — the raw
stored text, falling back to the OS preference when the key is absent
*or holds the empty string* (both are falsy). -/
def themeManager.storedOrPreferred (env : ThemeEnv) : String :=
  match env.store themeManager.key with
  | none => themeManager.preferredTheme env
  | some t => if textOf t = "" then themeManager.preferredTheme env else textOf t

/-- Embedding of `themeManager.get()` — resolves the theme from the raw stored text,
then normalizes anything outside `light`/`dark` to `light`.  Reads only;
never writes. -/
def themeManager.get (env : ThemeEnv) : String :=
  let currentTheme := themeManager.storedOrPreferred env
  if currentTheme = "light" ∨ currentTheme = "dark" then currentTheme else "light"

/-- Embedding of `themeManager.init()` — writes the resolved theme to the `data-theme`
attribute and back to the store. -/
def themeManager.init (env : ThemeEnv) : ThemeEnv :=
  let currentTheme := themeManager.get env
  { env with
    bodyTheme := some currentTheme,
    store := setItem env.store themeManager.key (.lit currentTheme) }

/-- Embedding of `themeManager.set(newTheme)` — writes the given theme to the attribute
and the store without validation. -/
def themeManager.setTheme (env : ThemeEnv) (newTheme : String) : ThemeEnv :=
  { env with
    bodyTheme := some newTheme,
    store := setItem env.store themeManager.key (.lit newTheme) }

/-- Embedding of `themeManager.toggle()` — flips the resolved theme and writes the
flipped value to the store and the attribute. -/
def themeManager.toggle (env : ThemeEnv) : ThemeEnv :=
  let currentTheme := themeManager.get env
  let altTheme := if currentTheme = "light" then "dark" else "light"
  { env with
    store := setItem env.store themeManager.key (.lit altTheme),
    bodyTheme := some altTheme }

/-! ## Query-string manager (`qsm`)

`window.location.search` (the query component, with its leading `?`) is
tracked symbolically: after navigating to a path produced by `qsm.gen j`
it is `"?" ++ btoa(JSON.stringify j)`, modelled as `SearchStr.tok j`;
`SearchStr.empty` is an absent query (`search = ""`); `SearchStr.other`
is any other query text, standing for text whose `atob`/`JSON.parse`
decoding fails (the spec's malformed-token case). -/

inductive SearchStr where
  | tok (j : Json) : SearchStr
  | empty : SearchStr
  | other (s : String) : SearchStr

/-- The decode `JSON.parse(window.atob(window.location.search.slice(1)))`:
decoding a `gen`-produced token recovers the encoded value; an empty
search decodes `atob("") = ""`, and `JSON.parse("")` throws; any other
text fails in `atob` or `JSON.parse`. -/
def decodeSearch : SearchStr → Except Unit Json
  | .tok j => .ok j
  | .empty => .error ()
  | .other _ => .error ()

/-- The JS `in` operator, `key in obj`: property membership for objects
(own keys; prototype-inherited properties are outside the model), index
or `length` membership for arrays, and a `TypeError` on primitives.
Only reached when `obj` is truthy. -/
def jsIn (key : String) : Json → Except Unit Bool
  | .obj fields => .ok (fields.any fun f => f.1 == key)
  | .arr elems =>
      .ok (key == "length" ||
        match key.toNat? with
        | some i => key == toString i && decide (i < elems.length)
        | none => false)
  | .null => .error ()
  | .bool _ => .error ()
  | .num _ => .error ()
  | .str _ => .error ()

/-- Property access `obj[key]`, only reached after `key in obj` held. -/
def jsGet (key : String) : Json → JsVal
  | .obj fields =>
      match fields.lookup key with
      | some v => .val v
      | none => .undefined
  | .arr elems =>
      if key = "length" then .val (.num elems.length)
      else
        match key.toNat? with
        | some i => match elems.get? i with
          | some v => .val v
          | none => .undefined
        | none => .undefined
  | .null => .undefined
  | .bool _ => .undefined
  | .num _ => .undefined
  | .str _ => .undefined

/-- The body of the `try` block of `qsm.read`, with a thrown exception
modelled as `Except.error`: decode the query, select `obj[key]` when
`key && obj && key in obj`, otherwise the whole structure, then replace a
`null`/`undefined` result by the default. -/
def qsm.readBody (loc : SearchStr) (key : Option String) (defaultValue : JsVal) :
    Except Unit JsVal :=
  match decodeSearch loc with
  | .error e => .error e
  | .ok obj =>
    let selected : Except Unit JsVal :=
      if keyTruthy key && obj.truthy then
        match jsIn (keyVal key) obj with
        | .error e => .error e
        | .ok present => .ok (if present then jsGet (keyVal key) obj else .val obj)
      else .ok (.val obj)
    match selected with
    | .error e => .error e
    | .ok value => .ok (if isNullish value then defaultValue else value)

/-- Embedding of `qsm.read(key?, defaultValue?)` — the `try`/`catch` wrapper: any
exception in the body yields the default. -/
def qsm.read (loc : SearchStr) (key : Option String := none) (defaultValue : JsVal := .undefined) :
    JsVal :=
  match qsm.readBody loc key defaultValue with
  | .ok v => v
  | .error _ => defaultValue

/-- The path produced by `qsm.gen(content, prefix)`:
`prefix + '?' + btoa(JSON.stringify(content))`.  `basePath` holds the
part before `?`; navigating to the path makes `location.search` the part
from `?` on, which is the token `SearchStr.tok content`. -/
structure GenPath where
  basePath : String
  search : SearchStr

/-- Embedding of `qsm.gen(content = {}, prefix = '')`. -/
def qsm.gen (content : Json := .obj []) (pfx : String := "") : GenPath :=
  ⟨pfx, .tok content⟩

example : qsm.read (qsm.gen (.obj [("a", .num 1), ("b", .str "x")])).search
    (some "a") (.val (.num 0)) = .val (.num 1) := rfl
example : qsm.read (qsm.gen (.obj [("a", .num 1), ("b", .str "x")])).search
    (some "missing") (.val (.num 7))
    = .val (.obj [("a", .num 1), ("b", .str "x")]) := rfl
example : qsm.read .empty (some "a") (.val (.num 7)) = .val (.num 7) := rfl

/-! ## Scroll-position cache (`scrollBack`)

The module-level registry `scrollPositions` (a JS object keyed by page
path), together with the browser state `scrollBack` reads and writes:
`window.location.pathname` and the vertical offset (`window.scrollY`,
written by `window.scrollTo(0, y)`). -/

structure ScrollState where
  scrollPositions : String → Option Int
  pathname : String
  scrollY : Int

/-- Embedding of `scrollBack.save()` —
`scrollPositions[window.location.pathname] = window.scrollY`. -/
def scrollBack.save (st : ScrollState) : ScrollState :=
  { st with scrollPositions :=
      fun page => if page = st.pathname then some st.scrollY else st.scrollPositions page }

/-- The callback `scrollBack.init()` hands to `setTimeout` (the deferred
body that runs after the current rendering pass).  Returns the new state
together with the offset passed to `window.scrollTo`, or `none` when no
scroll was performed. -/
def scrollBack.initBody (st : ScrollState) : ScrollState × Option Int :=
  match st.scrollPositions st.pathname with
  | some y =>
      ({ st with
          scrollY := y,
          scrollPositions := fun page => if page = st.pathname then none else st.scrollPositions page },
        some y)
  | none => (st, none)

/-! ## Audio resource cache (`audioPlayer`)

The closure-captured registry `urls` maps a URL to the `<audio>` element
created for it.  Element identity is tracked by a construction counter
(`nextId`), so "constructs no new element" is visible as `nextId` staying
put.  The module-level silent-unlock element and its one-shot click
listener touch no per-URL state and are not modelled (no claim mentions
them). -/

structure AudioEl where
  id : Nat
  src : String
  paused : Bool
  currentTime : Int
deriving Repr

structure AudioState where
  urls : List (String × AudioEl)
  nextId : Nat

/-- Playback commands accepted by `audioPlayer`. -/
inductive AudioStatus where
  | load : AudioStatus
  | play : AudioStatus
  | pause : AudioStatus
  | stop : AudioStatus
deriving Repr, DecidableEq

/-- The registry read `urls[url]` (first — and, keys being unique, only —
binding for `url`). -/
def lookupUrl : List (String × AudioEl) → String → Option AudioEl
  | [], _ => none
  | (k, v) :: tl, url => if url = k then some v else lookupUrl tl url

/-- Apply `f` to the element stored under `url`, leaving the registry's
keys and every other element unchanged (in-place mutation of
`urls[url]`). -/
def updateEl (urls : List (String × AudioEl)) (url : String) (f : AudioEl → AudioEl) :
    List (String × AudioEl) :=
  urls.map fun kv => if kv.1 = url then (kv.1, f kv.2) else kv

/-- Embedding of `audioPlayer(url = '', status?)` — no-op on a falsy URL; creates and
caches an element for an unseen URL (`new` element: construction counter
advances); `status` defaults to `play`; `load` only ensures the element
exists; `play`/`pause`/`stop` drive the cached element. -/
def audioPlayer (st : AudioState) (url : String := "") (status : Option AudioStatus := none) :
    AudioState :=
  if url = "" then st
  else
    let st := if (lookupUrl st.urls url).isSome then st
      else { urls := st.urls ++ [(url, ⟨st.nextId, url, true, 0⟩)], nextId := st.nextId + 1 }
    let status := status.getD .play
    match status with
    | .load => st
    | .play => { st with urls := updateEl st.urls url fun el => { el with paused := false } }
    | .pause => { st with urls := updateEl st.urls url fun el => { el with paused := true } }
    | .stop => { st with urls := updateEl st.urls url fun el => { el with paused := true, currentTime := 0 } }

example :
    ((audioPlayer (audioPlayer ⟨[], 0⟩ "u" (some .play)) "u" (some .play)).urls.map
      fun kv => kv.2.id) = [0] := rfl
example : (audioPlayer (audioPlayer ⟨[], 0⟩ "u" (some .play)) "u" (some .play)).nextId = 1 := rfl

/-! ## Helper lemmas -/

/-- The resolved theme `themeManager.get` returns is always `"light"` or `"dark"`. -/
theorem themeManager.get_light_or_dark (env : ThemeEnv) :
    themeManager.get env = "light" ∨ themeManager.get env = "dark" := by
  unfold themeManager.get
  by_cases h : themeManager.storedOrPreferred env = "light" ∨
      themeManager.storedOrPreferred env = "dark"
  · simpa [if_pos h] using h
  · simp [if_neg h]

/-- When the store holds a valid raw theme text under `APP_THEME`,
`themeManager.get` returns it unchanged. -/
theorem themeManager.get_stored_valid (env : ThemeEnv) (s : String)
    (hs : env.store themeManager.key = some (.lit s))
    (h : s = "light" ∨ s = "dark") :
    themeManager.get env = s := by
  rcases h with h | h <;> subst h <;>
    simp [themeManager.get, themeManager.storedOrPreferred, textOf, hs]

/-- After a toggle, the resolved theme is the flip of the previous one. -/
theorem themeManager.get_toggle (env : ThemeEnv) :
    themeManager.get (themeManager.toggle env)
      = if themeManager.get env = "light" then "dark" else "light" := by
  apply themeManager.get_stored_valid
  · simp [themeManager.toggle, setItem]
  · by_cases h : themeManager.get env = "light" <;> simp [h]

/-! ## Claim theorems -/

/-- C10: `storageManager.set(k, undefined)` does not throw; it writes the
literal text `"undefined"` under `k` (the `String()` coercion `setItem`
applies to the `undefined` that `JSON.stringify` returns), and a
subsequent `storageManager.get(k, d)` returns `d` because that text fails
to parse as JSON. -/
theorem storage_set_undefined_get_default (store : Store) (k : String) (d : JsVal) :
    storageManager.set store k .undefined k = some (.lit "undefined") ∧
    storageManager.get (storageManager.set store k .undefined) k d = d := by
  constructor
  · simp [storageManager.set, setItem, stringifyArg]
  · simp [storageManager.get, storageManager.set, setItem, stringifyArg, jsonParseStored]

/-- C9: `qsm.read('', d)` with an empty-string key behaves exactly like
`qsm.read()` with the key omitted, for every location and default: the
empty string is falsy, so the `key && obj && key in obj` guard takes the
same branch and the whole decoded structure (or the default) is
returned, never a field lookup. -/
theorem qsm_read_empty_key_eq_omitted (loc : SearchStr) (d : JsVal) :
    qsm.read loc (some "") d = qsm.read loc none d := by
  cases loc <;> rfl

/-- C6: running `themeManager.toggle()` twice leaves the resolved theme
(`themeManager.get()`) equal to what it was before the first toggle, for
every starting store and OS-preference state. -/
theorem theme_toggle_twice_restores (env : ThemeEnv) :
    themeManager.get (themeManager.toggle (themeManager.toggle env))
      = themeManager.get env := by
  rw [themeManager.get_toggle, themeManager.get_toggle]
  rcases themeManager.get_light_or_dark env with h | h <;> simp [h]

/-- C2 (counterexample): storing `null` does not round-trip.
`storageManager.set('k', null)` writes `"null"`, which parses back to
`null`, and the `[null, undefined].includes(value)` guard then makes
`storageManager.get('k')` return the (omitted) default `undefined`,
which is not deep-equal to `null`. -/
theorem storage_null_roundtrip_fails :
    storageManager.get (storageManager.set emptyStore "k" (.val .null)) "k" = .undefined ∧
    JsVal.undefined ≠ JsVal.val .null :=
  ⟨rfl, by simp⟩

/-- C2 (amended): for every JSON-serializable value `v` other than
`null` and every key `k`, `storageManager.set(k, v)` followed by
`storageManager.get(k)` returns a value deep-equal to `v`; storing
`null` instead yields the caller-supplied default. -/
theorem storage_roundtrip (store : Store) (k : String) (v : Json) (d : JsVal)
    (hwf : v.wfB = true) (hv : v ≠ .null) :
    storageManager.get (storageManager.set store k (.val v)) k d = .val v := by
  simp only [storageManager.get, storageManager.set, setItem, stringifyArg, jsonParseStored,
    if_pos rfl]
  cases v <;> simp_all [isNullish]

/-- Witness for C2's amended theorem at `v = {a: 1}`. -/
theorem storage_roundtrip_witness :
    storageManager.get (storageManager.set emptyStore "k" (.val (.obj [("a", .num 1)]))) "k" .undefined
      = .val (.obj [("a", .num 1)]) :=
  storage_roundtrip emptyStore "k" (.obj [("a", .num 1)]) .undefined rfl (by simp)

/-- C3 (counterexample): `storageManager.clear('')` does not remove only
the empty-string key — the empty string is falsy, so the `key ? ... : ...`
guard takes the clear-all branch and every other key's value is removed
as well: with `"x"` stored, `clear('')` leaves nothing under `"x"`. -/
theorem storage_clear_empty_key_clears_all :
    storageManager.clear (setItem emptyStore "x" (.lit "1")) (some "") "x" = none ∧
    setItem emptyStore "x" (.lit "1") "x" = some (.lit "1") :=
  ⟨rfl, rfl⟩

/-- C3 (amended): for every **non-empty** key `k`, `clear(k)` removes
only the entry for `k` and leaves every other key's stored value
unchanged; `clear()` with no argument — and also `clear('')`, since the
empty string is falsy — removes all entries in the store. -/
theorem storage_clear_frame (store : Store) (k k' : String) (hk : k ≠ "") :
    storageManager.clear store (some k) k = none ∧
    (k' ≠ k → storageManager.clear store (some k) k' = store k') ∧
    storageManager.clear store none k' = none ∧
    storageManager.clear store (some "") k' = none := by
  refine ⟨?_, fun hne => ?_, rfl, rfl⟩
  · simp [storageManager.clear, keyTruthy, keyVal, removeItem, hk]
  · simp [storageManager.clear, keyTruthy, keyVal, removeItem, hk, hne]

/-- Witness for C3's amended theorem: a two-entry store, clearing `"a"`. -/
theorem storage_clear_frame_witness :
    storageManager.clear (setItem (setItem emptyStore "a" (.lit "1")) "b" (.lit "2")) (some "a") "a"
      = none ∧
    storageManager.clear (setItem (setItem emptyStore "a" (.lit "1")) "b" (.lit "2")) (some "a") "b"
      = setItem (setItem emptyStore "a" (.lit "1")) "b" (.lit "2") "b" ∧
    storageManager.clear (setItem (setItem emptyStore "a" (.lit "1")) "b" (.lit "2")) none "b"
      = none :=
  have h := storage_clear_frame (setItem (setItem emptyStore "a" (.lit "1")) "b" (.lit "2"))
    "a" "b" (by decide)
  ⟨h.1, h.2.1 (by decide), h.2.2.1⟩

/-- C4 (counterexample): an empty string stored under `APP_THEME` is not
normalized to `light` — it is falsy, so `getItem(key) || preferredTheme`
falls back to the OS preference, and with OS dark mode on,
`themeManager.get()` returns `dark`. -/
theorem theme_empty_stored_follows_os :
    themeManager.get ⟨setItem emptyStore "APP_THEME" (.lit ""), true, none⟩ = "dark" ∧
    ("dark" : String) ≠ "light" :=
  ⟨rfl, by decide⟩

/-- C4 (amended): every **non-empty** stored value under `APP_THEME`
that is not exactly `light` or `dark` (for example `"blue"`) makes
`themeManager.get()` return `light`; an empty stored value instead falls
back to the OS preference (dark when the OS prefers dark, else light). -/
theorem theme_invalid_stored_normalized (env : ThemeEnv) (t : JsText)
    (hs : env.store themeManager.key = some t)
    (h0 : textOf t ≠ "") (h1 : textOf t ≠ "light") (h2 : textOf t ≠ "dark") :
    themeManager.get env = "light" := by
  simp [themeManager.get, themeManager.storedOrPreferred, hs, h0, h1, h2]

/-- Witness for C4's amended theorem at the stored value `"blue"`. -/
theorem theme_invalid_stored_normalized_witness :
    themeManager.get ⟨setItem emptyStore "APP_THEME" (.lit "blue"), true, none⟩ = "light" :=
  theme_invalid_stored_normalized
    ⟨setItem emptyStore "APP_THEME" (.lit "blue"), true, none⟩ (.lit "blue")
    rfl (by decide) (by decide) (by decide)

/-- C5: both read paths are total — modelled exceptions (`Except.error`)
never escape `storageManager.get` or `qsm.read`, whose `try`/`catch`
translation returns the caller-supplied default instead — and in every
failure case (absent key, malformed stored text, stored `null`, empty or
malformed query token, `null` query payload) the caller-supplied default
`d` is returned. -/
theorem read_paths_return_default (store : Store) (k : String) (key : Option String)
    (d : JsVal) (s : String) (loc : SearchStr) :
    (store k = none → storageManager.get store k d = d) ∧
    (store k = some (.lit s) → storageManager.get store k d = d) ∧
    (store k = some (.json .null) → storageManager.get store k d = d) ∧
    qsm.read .empty key d = d ∧
    qsm.read (.other s) key d = d ∧
    (decodeSearch loc = .ok .null → qsm.read loc key d = d) := by
  refine ⟨fun h => ?_, fun h => ?_, fun h => ?_, rfl, rfl, fun h => ?_⟩
  · simp [storageManager.get, h, jsonParseStored, isNullish]
  · simp [storageManager.get, h, jsonParseStored]
  · simp [storageManager.get, h, jsonParseStored, isNullish]
  · cases loc with
    | tok j =>
        have hj : j = Json.null := by simpa [decodeSearch] using h
        subst hj
        simp [qsm.read, qsm.readBody, decodeSearch, Json.truthy, isNullish]
    | empty => rfl
    | other s => rfl

/-- Witness for C5 across its failure cases: absent key, malformed
stored text, stored `null`, empty query, malformed query, `null`
payload. -/
theorem read_paths_return_default_witness :
    storageManager.get emptyStore "a" (.val (.num 7)) = .val (.num 7) ∧
    storageManager.get (setItem emptyStore "a" (.lit "oops")) "a" (.val (.num 7)) = .val (.num 7) ∧
    storageManager.get (setItem emptyStore "a" (.json .null)) "a" (.val (.num 7)) = .val (.num 7) ∧
    qsm.read .empty (some "a") (.val (.num 7)) = .val (.num 7) ∧
    qsm.read (.other "%%%") (some "a") (.val (.num 7)) = .val (.num 7) ∧
    qsm.read (.tok .null) (some "a") (.val (.num 7)) = .val (.num 7) :=
  ⟨(read_paths_return_default emptyStore "a" (some "a") (.val (.num 7)) "%%%" (.tok .null)).1 rfl,
   (read_paths_return_default (setItem emptyStore "a" (.lit "oops")) "a" (some "a") (.val (.num 7))
      "oops" (.tok .null)).2.1 rfl,
   (read_paths_return_default (setItem emptyStore "a" (.json .null)) "a" (some "a") (.val (.num 7))
      "%%%" (.tok .null)).2.2.1 rfl,
   (read_paths_return_default emptyStore "a" (some "a") (.val (.num 7)) "%%%" (.tok .null)).2.2.2.1,
   (read_paths_return_default emptyStore "a" (some "a") (.val (.num 7)) "%%%" (.tok .null)).2.2.2.2.1,
   (read_paths_return_default emptyStore "a" (some "a") (.val (.num 7)) "%%%" (.tok .null)).2.2.2.2.2
     rfl⟩

/-- C7: scroll-checkpoint at-most-once consumption.  After `save()`
records the current offset for the current path, the first deferred
`init()` body that runs at that path scrolls to the saved offset and
deletes the registry entry (touching no other path's entry), and any
later `init()` body at that path without an intervening `save()`
performs no scroll and leaves the whole state unchanged. -/
theorem scrollback_at_most_once (st st2 : ScrollState)
    (hpath : st2.pathname = st.pathname)
    (hreg : st2.scrollPositions = (scrollBack.save st).scrollPositions) :
    (scrollBack.save st).scrollPositions st.pathname = some st.scrollY ∧
    (scrollBack.initBody st2).2 = some st.scrollY ∧
    (scrollBack.initBody st2).1.scrollY = st.scrollY ∧
    (scrollBack.initBody st2).1.scrollPositions st.pathname = none ∧
    (∀ q, q ≠ st.pathname → (scrollBack.initBody st2).1.scrollPositions q = st2.scrollPositions q) ∧
    (∀ st3, st3.pathname = st.pathname →
      st3.scrollPositions = (scrollBack.initBody st2).1.scrollPositions →
      scrollBack.initBody st3 = (st3, none)) := by
  have hsave : (scrollBack.save st).scrollPositions st.pathname = some st.scrollY := by
    simp [scrollBack.save]
  have hlook : st2.scrollPositions st2.pathname = some st.scrollY := by
    rw [hreg, hpath]; exact hsave
  have hbody : scrollBack.initBody st2 =
      ({ st2 with
          scrollY := st.scrollY,
          scrollPositions := fun page =>
            if page = st2.pathname then none else st2.scrollPositions page },
        some st.scrollY) := by
    simp [scrollBack.initBody, hlook]
  refine ⟨hsave, ?_, ?_, ?_, ?_, ?_⟩
  · rw [hbody]
  · rw [hbody]
  · rw [hbody]; simp [hpath]
  · intro q hq
    rw [hbody]
    simp only
    rw [if_neg (by rw [hpath]; exact hq)]
  · intro st3 hpath3 hreg3
    have hlook3 : st3.scrollPositions st3.pathname = none := by
      rw [hreg3, hpath3, hbody]
      simp [hpath]
    simp [scrollBack.initBody, hlook3]

/-- Witness for C7: save at `/p` with offset 120, run the deferred init
body at `/p` (restores 120 and consumes the entry), run it again
(no-op). -/
theorem scrollback_at_most_once_witness :
    (scrollBack.initBody ⟨(scrollBack.save ⟨fun _ => none, "/p", 120⟩).scrollPositions, "/p", 0⟩).2
      = some 120 ∧
    scrollBack.initBody
        ⟨(scrollBack.initBody
            ⟨(scrollBack.save ⟨fun _ => none, "/p", 120⟩).scrollPositions, "/p", 0⟩).1.scrollPositions,
          "/p", 0⟩
      = (⟨(scrollBack.initBody
            ⟨(scrollBack.save ⟨fun _ => none, "/p", 120⟩).scrollPositions, "/p", 0⟩).1.scrollPositions,
          "/p", 0⟩, none) :=
  have h := scrollback_at_most_once ⟨fun _ => none, "/p", 120⟩
    ⟨(scrollBack.save ⟨fun _ => none, "/p", 120⟩).scrollPositions, "/p", 0⟩ rfl rfl
  ⟨h.2.1,
    h.2.2.2.2.2
      ⟨(scrollBack.initBody
          ⟨(scrollBack.save ⟨fun _ => none, "/p", 120⟩).scrollPositions, "/p", 0⟩).1.scrollPositions,
        "/p", 0⟩
      rfl rfl⟩

/-- Updating an element changes no key: the registry's URL list is untouched. -/
theorem updateEl_map_fst (l : List (String × AudioEl)) (url : String) (f : AudioEl → AudioEl) :
    (updateEl l url f).map Prod.fst = l.map Prod.fst := by
  induction l with
  | nil => rfl
  | cons kv tl ih =>
      simp only [updateEl, List.map] at ih ⊢
      by_cases h : kv.1 = url <;> simp [h, ih]

/-- Updating maps the element stored under `url` through `f`. -/
theorem updateEl_lookupUrl (l : List (String × AudioEl)) (url : String) (f : AudioEl → AudioEl)
    (el : AudioEl) (h : lookupUrl l url = some el) :
    lookupUrl (updateEl l url f) url = some (f el) := by
  induction l with
  | nil => simp [lookupUrl] at h
  | cons kv tl ih =>
      rcases kv with ⟨k, v⟩
      by_cases hk : url = k
      · subst hk
        rw [lookupUrl, if_pos rfl] at h
        have hv : v = el := Option.some.inj h
        subst hv
        rw [show updateEl ((url, v) :: tl) url f = (url, f v) :: updateEl tl url f from by
          simp [updateEl]]
        rw [lookupUrl, if_pos rfl]
      · rw [lookupUrl, if_neg hk] at h
        have hne : ¬k = url := fun hh => hk hh.symm
        rw [show updateEl ((k, v) :: tl) url f = (k, v) :: updateEl tl url f from by
          simp [updateEl, hne]]
        rw [lookupUrl, if_neg hk]
        exact ih h

/-- A URL with no registry entry is not among the registry's keys. -/
theorem lookupUrl_none_not_mem_fst (l : List (String × AudioEl)) (url : String)
    (h : lookupUrl l url = none) : url ∉ l.map Prod.fst := by
  induction l with
  | nil => simp
  | cons kv tl ih =>
      rcases kv with ⟨k, v⟩
      by_cases hk : url = k
      · subst hk; simp [lookupUrl] at h
      · simp only [lookupUrl, if_neg hk] at h
        simp [hk, ih h]

/-- Updating with the identity function changes nothing. -/
theorem updateEl_id (l : List (String × AudioEl)) (url : String) :
    updateEl l url (fun e => e) = l := by
  induction l with
  | nil => rfl
  | cons kv tl ih => by_cases h : kv.1 = url <;> simp [updateEl, h]

/-- C8: audio-handle memoization.  The registry holds at most one handle
per distinct URL (key distinctness is preserved by every call), and a
second `audioPlayer(url, ...)` call for a URL already in the registry —
whatever the status — constructs no new element (the construction counter
does not advance), adds no key, and drives the cached handle (same
identity and source). -/
theorem audio_memoization (st : AudioState) (url : String) (status : Option AudioStatus)
    (el : AudioEl) (hurl : url ≠ "") (hmem : lookupUrl st.urls url = some el) :
    (audioPlayer st url status).urls.map Prod.fst = st.urls.map Prod.fst ∧
    (audioPlayer st url status).nextId = st.nextId ∧
    (∃ el', lookupUrl (audioPlayer st url status).urls url = some el' ∧
      el'.id = el.id ∧ el'.src = el.src) ∧
    (∀ st' u s, (st'.urls.map Prod.fst).Nodup →
      ((audioPlayer st' u s).urls.map Prod.fst).Nodup) := by
  have hsome : (lookupUrl st.urls url).isSome = true := by rw [hmem]; rfl
  have hbranch : ∃ f : AudioEl → AudioEl,
      (∀ e, (f e).id = e.id ∧ (f e).src = e.src) ∧
      (audioPlayer st url status).urls = updateEl st.urls url f ∧
      (audioPlayer st url status).nextId = st.nextId := by
    cases status with
    | none =>
        refine ⟨fun e => { e with paused := false }, fun e => ⟨rfl, rfl⟩, ?_, ?_⟩ <;>
          simp [audioPlayer, hurl, hsome]
    | some s =>
        cases s with
        | load =>
            refine ⟨fun e => e, fun e => ⟨rfl, rfl⟩, ?_, ?_⟩ <;>
              simp [audioPlayer, hurl, hsome, updateEl_id]
        | play =>
            refine ⟨fun e => { e with paused := false }, fun e => ⟨rfl, rfl⟩, ?_, ?_⟩ <;>
              simp [audioPlayer, hurl, hsome]
        | pause =>
            refine ⟨fun e => { e with paused := true }, fun e => ⟨rfl, rfl⟩, ?_, ?_⟩ <;>
              simp [audioPlayer, hurl, hsome]
        | stop =>
            refine ⟨fun e => { e with paused := true, currentTime := 0 },
              fun e => ⟨rfl, rfl⟩, ?_, ?_⟩ <;> simp [audioPlayer, hurl, hsome]
  rcases hbranch with ⟨f, hf, hurls, hnext⟩
  refine ⟨by rw [hurls, updateEl_map_fst], hnext,
    ⟨f el, by rw [hurls]; exact updateEl_lookupUrl _ _ _ _ hmem, (hf el).1, (hf el).2⟩, ?_⟩
  intro st' u s hnd
  by_cases hu : u = ""
  · simpa [audioPlayer, hu] using hnd
  · by_cases hsome' : (lookupUrl st'.urls u).isSome = true
    · have hmf : (audioPlayer st' u s).urls.map Prod.fst = st'.urls.map Prod.fst := by
        cases s with
        | none => simp [audioPlayer, hu, hsome', updateEl_map_fst]
        | some s' => cases s' <;> simp [audioPlayer, hu, hsome', updateEl_map_fst, updateEl_id]
      rw [hmf]; exact hnd
    · have hnone : lookupUrl st'.urls u = none := by
        cases hopt : lookupUrl st'.urls u with
        | none => rfl
        | some x => rw [hopt] at hsome'; simp at hsome'
      have hnotmem := lookupUrl_none_not_mem_fst st'.urls u hnone
      have hmf : (audioPlayer st' u s).urls.map Prod.fst
          = st'.urls.map Prod.fst ++ [u] := by
        cases s with
        | none => simp [audioPlayer, hu, hsome', updateEl_map_fst]
        | some s' => cases s' <;> simp [audioPlayer, hu, hsome', updateEl_map_fst, updateEl_id]
      rw [hmf]
      simp [List.nodup_append, hnd, hnotmem]

/-- Witness for C8: a second `play` call for an already-registered URL
keeps the construction counter and the cached element's identity. -/
theorem audio_memoization_witness :
    (audioPlayer (audioPlayer ⟨[], 0⟩ "u" (some .play)) "u" (some .play)).nextId
      = (audioPlayer ⟨[], 0⟩ "u" (some .play)).nextId ∧
    (∃ el', lookupUrl (audioPlayer (audioPlayer ⟨[], 0⟩ "u" (some .play)) "u" (some .play)).urls "u"
      = some el' ∧ el'.id = 0 ∧ el'.src = "u") :=
  have h := audio_memoization (audioPlayer ⟨[], 0⟩ "u" (some .play)) "u" (some .play)
    ⟨0, "u", false, 0⟩ (by decide) rfl
  ⟨h.2.1, h.2.2.1⟩

/-- C1 (code bug): with the location's query component produced by
`qsm.gen({a: 1, b: "x"})`, `qsm.read('a', 0)` does return `1`, but
`qsm.read('missing', 7)` does **not** return the default `7`: the
`else value = obj` branch of `qsm.read` returns the whole decoded
structure `{a: 1, b: "x"}` when the key is absent, contradicting the
repository's own readme (`qsm.read('b', 2) // -> 2` for a payload
without `b`) and the spec's round-trip law. -/
theorem qsm_read_missing_key_returns_whole_payload :
    qsm.read (qsm.gen (.obj [("a", .num 1), ("b", .str "x")])).search
        (some "a") (.val (.num 0)) = .val (.num 1) ∧
    qsm.read (qsm.gen (.obj [("a", .num 1), ("b", .str "x")])).search
        (some "missing") (.val (.num 7)) = .val (.obj [("a", .num 1), ("b", .str "x")]) ∧
    JsVal.val (.obj [("a", .num 1), ("b", .str "x")]) ≠ JsVal.val (.num 7) :=
  ⟨rfl, rfl, by simp⟩
